import Mathlib

/-!
Shallow embedding of the loading-overlay utility (src/src/utils/loading.js)
and the device detector (src/src/utils/viewport.js) of the
Frontend-Toolkit repository.

Modelling notes for loading.js:

- Module-scoped mutable state (loadingCount, loadingInstance, prevOverflow,
  widthPercent) together with the relevant part of the host document
  (body inline overflow, the injected style marker) is bundled in `LState`.
- The JS code only ever appends `loadingInstance` to the body, and every
  append is preceded by removal of the previously mounted instance, so at
  most one mask is ever in the document and it is always the one referenced
  by `loadingInstance`.  The document body content is therefore represented
  by the `mounted` flag of the current instance.
- `setTimeout(cb, 300)` in hideLoading is modelled by recording the fire
  time `now + 300` in a queue of pending teardown timers; the callback
  body is `teardownCb`, which reads the state at fire time exactly as the
  JS closure reads the module globals.
- `requestAnimationFrame` callbacks close over a particular bar-line
  element and read `widthPercent` at fire time; they are modelled by a
  queue of element ids, applied by `fireRaf`.
- The one-shot `transitionend` listener registered by loadingBarEnd is
  modelled by a list of element ids carrying the listener; the host firing
  the transition event is the `fireTransition` step, which removes the
  listener (the `once` option) and runs the cleanup closure.
- Time passes only via explicit `advance` steps; all API calls are
  synchronous, matching the single-threaded event-driven host.
-/

namespace FrontendToolkit

/-- Content of a mounted mask: a spinner mask with an optional text label
(the label is set only when the argument is truthy, i.e. a non-empty
string), or a bar mask whose progress line has a given inline width
(the empty string means no inline width, i.e. the zero width of the
stylesheet). -/
inductive ElemKind where
  | spinner (text : Option String)
  | bar (lineWidth : String)
deriving DecidableEq

/-- A mask element created by showLoading or loadingBarStart: its identity,
its content, and whether it is currently attached to the document body. -/
structure Elem where
  id : Nat
  kind : ElemKind
  mounted : Bool
deriving DecidableEq

/-- The module state of loading.js together with the relevant host state. -/
structure LState where
  /-- the module variable loadingCount (a JS number, modelled as Int) -/
  loadingCount : Int
  /-- the module variable loadingInstance (null = none) -/
  loadingInstance : Option Elem
  /-- the module variable prevOverflow -/
  prevOverflow : String
  /-- document.body.style.overflow -/
  bodyOverflow : String
  /-- the module variable widthPercent -/
  widthPercent : Int
  /-- number of style elements with the marker id in document.head -/
  styleCount : Nat
  /-- current time in the host time units used by setTimeout -/
  now : Nat
  /-- fire times of pending hideLoading teardown timeouts, in schedule order -/
  timers : List Nat
  /-- element ids of bar lines with a pending requestAnimationFrame width update -/
  rafQueue : List Nat
  /-- element ids of bar lines carrying the one-shot transitionend cleanup listener -/
  transListeners : List Nat
  /-- id generator for created elements -/
  nextId : Nat
deriving DecidableEq

/-- injectStyle: if a style element with the marker id already exists, do
nothing; otherwise create and append one. -/
def injectStyle (s : LState) : LState :=
  if s.styleCount ≠ 0 then s else { s with styleCount := s.styleCount + 1 }

/-- The text label actually displayed: `if (text) textEl.textContent = text`
sets the label only for a truthy (non-empty) string. -/
def displayText (text : Option String) : Option String :=
  match text with
  | some t => if t = "" then none else some t
  | none => none

/-- showLoading(text): inject styles; when the count is 0, discard any
orphaned instance, mount a fresh spinner mask, save the current body
overflow into prevOverflow and set the body overflow to hidden; finally
increment the count unconditionally. -/
def showLoading (text : Option String) (s : LState) : LState :=
  let s := injectStyle s
  if s.loadingCount = 0 then
    { s with
      loadingInstance := some ⟨s.nextId, ElemKind.spinner (displayText text), true⟩
      nextId := s.nextId + 1
      prevOverflow := s.bodyOverflow
      bodyOverflow := "hidden"
      loadingCount := s.loadingCount + 1 }
  else
    { s with loadingCount := s.loadingCount + 1 }

/-- hideLoading(force): if no instance exists or the count is not positive,
reset the count to 0 and return; otherwise decrement (or zero, when
forced) the count, and when it reaches 0 schedule a teardown timeout for
300 time units later. -/
def hideLoading (force : Bool) (s : LState) : LState :=
  if s.loadingInstance = none ∨ s.loadingCount ≤ 0 then
    { s with loadingCount := 0 }
  else
    let s := if force then { s with loadingCount := 0 }
             else { s with loadingCount := s.loadingCount - 1 }
    if s.loadingCount = 0 then { s with timers := s.timers ++ [s.now + 300] }
    else s

/-- The body of the setTimeout callback in hideLoading, executed at fire
time: return immediately when the count was raised above 0 in the
interim; otherwise detach the instance, clear the reference and restore
the saved body overflow. -/
def teardownCb (s : LState) : LState :=
  if 0 < s.loadingCount then s
  else { s with loadingInstance := none, bodyOverflow := s.prevOverflow }

/-- The host fires the earliest pending teardown timeout, provided its fire
time has been reached. -/
def fireTimer (s : LState) : LState :=
  match s.timers with
  | [] => s
  | t :: rest => if t ≤ s.now then teardownCb { s with timers := rest } else s

/-- document.querySelector on the bar-line class: the line exists in the
document exactly when the current instance is a mounted bar mask. -/
def queryLine (s : LState) : Option Nat :=
  match s.loadingInstance with
  | some e =>
    match e.kind with
    | ElemKind.bar _ => if e.mounted then some e.id else none
    | ElemKind.spinner _ => none
  | none => none

/-- loadingBarStart(): inject styles, detach any existing instance, mount a
fresh bar mask with a zero-width line, save the current body overflow,
set the body overflow to hidden and reset widthPercent to 0. -/
def loadingBarStart (s : LState) : LState :=
  let s := injectStyle s
  { s with
    loadingInstance := some ⟨s.nextId, ElemKind.bar "", true⟩
    nextId := s.nextId + 1
    prevOverflow := s.bodyOverflow
    bodyOverflow := "hidden"
    widthPercent := 0 }

/-- setLoadingBar(num): reject values below 1 or above 100; return when no
line is in the document; otherwise store the value and schedule a
requestAnimationFrame width update on that line. -/
def setLoadingBar (num : Int) (s : LState) : LState :=
  if num < 1 ∨ num > 100 then s
  else
    match queryLine s with
    | none => s
    | some lid => { s with widthPercent := num, rafQueue := s.rafQueue ++ [lid] }

/-- The host runs the earliest pending requestAnimationFrame callback: it
sets the inline width of the captured line to the current widthPercent.
A line of an element no longer referenced is detached and invisible, so
only the current instance is updated. -/
def fireRaf (s : LState) : LState :=
  match s.rafQueue with
  | [] => s
  | lid :: rest =>
    match s.loadingInstance with
    | some e =>
      match e.kind with
      | ElemKind.bar _ =>
        if e.id = lid then
          let w := toString s.widthPercent ++ "%"
          { s with rafQueue := rest, loadingInstance := some ⟨e.id, ElemKind.bar w, e.mounted⟩ }
        else { s with rafQueue := rest }
      | ElemKind.spinner _ => { s with rafQueue := rest }
    | none => { s with rafQueue := rest }

/-- The cleanup closure registered by loadingBarEnd: detach the instance,
clear the reference, reset widthPercent and restore the saved body
overflow. -/
def barCleanup (s : LState) : LState :=
  { s with loadingInstance := none, widthPercent := 0, bodyOverflow := s.prevOverflow }

/-- loadingBarEnd(): return when no line is in the document; otherwise
register the one-shot transitionend cleanup listener on the line and set
the bar to 100. -/
def loadingBarEnd (s : LState) : LState :=
  match queryLine s with
  | none => s
  | some lid =>
    setLoadingBar 100 { s with transListeners := s.transListeners ++ [lid] }

/-- The host fires a transitionend event on the line with the given id: if
that line carries the one-shot listener, remove the listener and run the
cleanup closure. -/
def fireTransition (lid : Nat) (s : LState) : LState :=
  if lid ∈ s.transListeners then
    barCleanup { s with transListeners := s.transListeners.erase lid }
  else s

/-- One step of an execution: an API call, the passage of time, or the host
firing a pending callback or event. -/
inductive Ev where
  | doShow (text : Option String)
  | doHide (force : Bool)
  | doBarStart
  | doSetBar (n : Int)
  | doBarEnd
  | advance (dt : Nat)
  | timerFires
  | rafFires
  | transitionFires (lid : Nat)
deriving DecidableEq

/-- Apply one event to the state. -/
def step (s : LState) (e : Ev) : LState :=
  match e with
  | Ev.doShow t => showLoading t s
  | Ev.doHide f => hideLoading f s
  | Ev.doBarStart => loadingBarStart s
  | Ev.doSetBar n => setLoadingBar n s
  | Ev.doBarEnd => loadingBarEnd s
  | Ev.advance dt => { s with now := s.now + dt }
  | Ev.timerFires => fireTimer s
  | Ev.rafFires => fireRaf s
  | Ev.transitionFires lid => fireTransition lid s

/-- Run a sequence of events. -/
def exec (s : LState) (evs : List Ev) : LState := evs.foldl step s

/-- The module state at load time, for a host whose body has the given
inline overflow value. -/
def mkInit (overflow : String) : LState :=
  { loadingCount := 0, loadingInstance := none, prevOverflow := ""
    bodyOverflow := overflow, widthPercent := 0, styleCount := 0
    now := 0, timers := [], rafQueue := [], transListeners := []
    nextId := 0 }

/-- The module state at load time with the default empty inline overflow. -/
def initState : LState := mkInit ""

/-- Does this event run injectStyle (i.e. is it a showLoading or
loadingBarStart call)? -/
def injects (e : Ev) : Bool :=
  match e with
  | Ev.doShow _ => true
  | Ev.doBarStart => true
  | _ => false

/-- getDevice of viewport.js.  The two regular-expression tests on the
user-agent string are abstracted as the booleans they produce (the claim
under study quantifies over all user agents, hence over all boolean
pairs); the branch structure follows the source: isMobile starts true and
is set to false only in the desktop branch. -/
def getDevice (isTabletUA isPhoneUA : Bool) (width : Int) : String × Bool :=
  let isMobile := true
  if isTabletUA = true ∨ (width ≤ 1024 ∧ 768 ≤ width) then ("tablet", isMobile)
  else if isPhoneUA = true ∨ width < 768 then ("mobile", isMobile)
  else ("desktop", false)

/-- A balanced show and hide sequence in which the second show falls inside
the pending-teardown window of the first hide, and both scheduled
teardown timeouts are then allowed to fire. -/
def c1trace : List Ev :=
  [Ev.doShow none, Ev.doHide false, Ev.advance 50, Ev.doShow none,
   Ev.doHide false, Ev.advance 250, Ev.timerFires, Ev.advance 50, Ev.timerFires]

/-- The scenario of claim C2: show, hide, then a second show 50 units
later, with the pending teardown timeout firing at its scheduled time. -/
def c2trace : List Ev :=
  [Ev.doShow none, Ev.doHide false, Ev.advance 50, Ev.doShow none,
   Ev.advance 250, Ev.timerFires]

/-- Bar scenario, first stage: start the bar, set it to 50, let the
animation-frame callback run. -/
def c5a : List Ev := [Ev.doBarStart, Ev.doSetBar 50, Ev.rafFires]

/-- Bar scenario, second stage: end the bar and let the animation-frame
callback run. -/
def c5b : List Ev := c5a ++ [Ev.doBarEnd, Ev.rafFires]

/-- Bar scenario, final stage: the host fires the width transitionend
event on the line. -/
def c5c : List Ev := c5b ++ [Ev.transitionFires 0]

/- Helper lemmas about single operations, shared by the claim theorems. -/

lemma injectStyle_of_ne (s : LState) (h : s.styleCount ≠ 0) : injectStyle s = s := by
  unfold injectStyle
  rw [if_pos h]

lemma injectStyle_styleCount (s : LState) :
    (injectStyle s).styleCount = if s.styleCount = 0 then 1 else s.styleCount := by
  unfold injectStyle
  by_cases h : s.styleCount = 0 <;> simp [h]

lemma injectStyle_styleCount_ne (s : LState) : (injectStyle s).styleCount ≠ 0 := by
  rw [injectStyle_styleCount]
  split <;> simp_all

lemma showLoading_styleCount (t : Option String) (s : LState) :
    (showLoading t s).styleCount = (injectStyle s).styleCount := by
  simp only [showLoading]
  split <;> rfl

lemma loadingBarStart_styleCount (s : LState) :
    (loadingBarStart s).styleCount = (injectStyle s).styleCount := rfl

lemma hideLoading_styleCount (f : Bool) (s : LState) :
    (hideLoading f s).styleCount = s.styleCount := by
  simp only [hideLoading]
  repeat' split
  all_goals rfl

lemma hideLoading_count (f : Bool) (s : LState) :
    (hideLoading f s).loadingCount = 0 ∨
      (hideLoading f s).loadingCount = s.loadingCount - 1 := by
  simp only [hideLoading]
  repeat' split
  all_goals simp

lemma teardownCb_frame (s : LState) :
    (teardownCb s).loadingCount = s.loadingCount ∧
      (teardownCb s).styleCount = s.styleCount := by
  unfold teardownCb
  split <;> exact ⟨rfl, rfl⟩

lemma fireTimer_frame (s : LState) :
    (fireTimer s).loadingCount = s.loadingCount ∧
      (fireTimer s).styleCount = s.styleCount := by
  unfold fireTimer
  split
  · exact ⟨rfl, rfl⟩
  · split
    · exact ⟨(teardownCb_frame _).1, (teardownCb_frame _).2⟩
    · exact ⟨rfl, rfl⟩

lemma setLoadingBar_frame (n : Int) (s : LState) :
    (setLoadingBar n s).loadingCount = s.loadingCount ∧
      (setLoadingBar n s).styleCount = s.styleCount := by
  unfold setLoadingBar
  repeat' split
  all_goals exact ⟨rfl, rfl⟩

lemma loadingBarEnd_frame (s : LState) :
    (loadingBarEnd s).loadingCount = s.loadingCount ∧
      (loadingBarEnd s).styleCount = s.styleCount := by
  unfold loadingBarEnd
  split
  · exact ⟨rfl, rfl⟩
  · exact ⟨(setLoadingBar_frame _ _).1, (setLoadingBar_frame _ _).2⟩

lemma fireRaf_frame (s : LState) :
    (fireRaf s).loadingCount = s.loadingCount ∧
      (fireRaf s).styleCount = s.styleCount := by
  unfold fireRaf
  repeat' split
  all_goals exact ⟨rfl, rfl⟩

lemma fireTransition_frame (lid : Nat) (s : LState) :
    (fireTransition lid s).loadingCount = s.loadingCount ∧
      (fireTransition lid s).styleCount = s.styleCount := by
  unfold fireTransition
  split <;> exact ⟨rfl, rfl⟩

lemma step_styleCount (s : LState) (e : Ev) :
    (step s e).styleCount =
      if injects e = true ∧ s.styleCount = 0 then 1 else s.styleCount := by
  cases e with
  | doShow t =>
    show (showLoading t s).styleCount = _
    rw [showLoading_styleCount, injectStyle_styleCount]
    simp [injects]
  | doHide f =>
    show (hideLoading f s).styleCount = _
    rw [hideLoading_styleCount]
    simp [injects]
  | doBarStart =>
    show (loadingBarStart s).styleCount = _
    rw [loadingBarStart_styleCount, injectStyle_styleCount]
    simp [injects]
  | doSetBar n =>
    show (setLoadingBar n s).styleCount = _
    rw [(setLoadingBar_frame n s).2]
    simp [injects]
  | doBarEnd =>
    show (loadingBarEnd s).styleCount = _
    rw [(loadingBarEnd_frame s).2]
    simp [injects]
  | advance dt =>
    simp [step, injects]
  | timerFires =>
    show (fireTimer s).styleCount = _
    rw [(fireTimer_frame s).2]
    simp [injects]
  | rafFires =>
    show (fireRaf s).styleCount = _
    rw [(fireRaf_frame s).2]
    simp [injects]
  | transitionFires lid =>
    show (fireTransition lid s).styleCount = _
    rw [(fireTransition_frame lid s).2]
    simp [injects]

lemma exec_styleCount_le (evs : List Ev) :
    ∀ s : LState, s.styleCount ≤ 1 → (exec s evs).styleCount ≤ 1 := by
  induction evs with
  | nil => intro s h; exact h
  | cons e evs ih =>
    intro s h
    apply ih
    rw [step_styleCount]
    split <;> omega

lemma exec_styleCount_one (evs : List Ev) :
    ∀ s : LState, s.styleCount = 1 → (exec s evs).styleCount = 1 := by
  induction evs with
  | nil => intro s h; exact h
  | cons e evs ih =>
    intro s h
    apply ih
    rw [step_styleCount]
    split <;> omega

lemma exec_styleCount_inj (evs : List Ev) :
    ∀ s : LState, s.styleCount ≤ 1 → (∃ e ∈ evs, injects e = true) →
      (exec s evs).styleCount = 1 := by
  induction evs with
  | nil => intro s _ hex; simp at hex
  | cons e evs ih =>
    intro s hle hex
    by_cases he : injects e = true
    · show (exec (step s e) evs).styleCount = 1
      apply exec_styleCount_one
      rw [step_styleCount]
      split
      · rfl
      · rename_i hcond
        have hne : s.styleCount ≠ 0 := fun h0 => hcond ⟨he, h0⟩
        omega
    · rcases hex with ⟨f, hf, hinj⟩
      rcases List.mem_cons.mp hf with rfl | hmem
      · exact absurd hinj he
      · exact ih (step s e) (by rw [step_styleCount]; split <;> omega) ⟨f, hmem, hinj⟩

lemma step_count_style (s : LState) (e : Ev)
    (h : 0 < s.loadingCount → s.styleCount ≠ 0) :
    0 < (step s e).loadingCount → (step s e).styleCount ≠ 0 := by
  cases e with
  | doShow t =>
    intro _
    rw [show (step s (Ev.doShow t)).styleCount = (showLoading t s).styleCount from rfl,
      showLoading_styleCount]
    exact injectStyle_styleCount_ne s
  | doHide f =>
    intro hc
    rw [show (step s (Ev.doHide f)).styleCount = (hideLoading f s).styleCount from rfl,
      hideLoading_styleCount]
    rcases hideLoading_count f s with h0 | h1
    · rw [show (step s (Ev.doHide f)).loadingCount = (hideLoading f s).loadingCount from rfl,
        h0] at hc
      exact absurd hc (by omega)
    · rw [show (step s (Ev.doHide f)).loadingCount = (hideLoading f s).loadingCount from rfl,
        h1] at hc
      exact h (by omega)
  | doBarStart =>
    intro _
    rw [show (step s Ev.doBarStart).styleCount = (loadingBarStart s).styleCount from rfl,
      loadingBarStart_styleCount]
    exact injectStyle_styleCount_ne s
  | doSetBar n =>
    intro hc
    rw [show (step s (Ev.doSetBar n)).styleCount = (setLoadingBar n s).styleCount from rfl,
      (setLoadingBar_frame n s).2]
    rw [show (step s (Ev.doSetBar n)).loadingCount = (setLoadingBar n s).loadingCount from rfl,
      (setLoadingBar_frame n s).1] at hc
    exact h hc
  | doBarEnd =>
    intro hc
    rw [show (step s Ev.doBarEnd).styleCount = (loadingBarEnd s).styleCount from rfl,
      (loadingBarEnd_frame s).2]
    rw [show (step s Ev.doBarEnd).loadingCount = (loadingBarEnd s).loadingCount from rfl,
      (loadingBarEnd_frame s).1] at hc
    exact h hc
  | advance dt =>
    intro hc
    exact h hc
  | timerFires =>
    intro hc
    rw [show (step s Ev.timerFires).styleCount = (fireTimer s).styleCount from rfl,
      (fireTimer_frame s).2]
    rw [show (step s Ev.timerFires).loadingCount = (fireTimer s).loadingCount from rfl,
      (fireTimer_frame s).1] at hc
    exact h hc
  | rafFires =>
    intro hc
    rw [show (step s Ev.rafFires).styleCount = (fireRaf s).styleCount from rfl,
      (fireRaf_frame s).2]
    rw [show (step s Ev.rafFires).loadingCount = (fireRaf s).loadingCount from rfl,
      (fireRaf_frame s).1] at hc
    exact h hc
  | transitionFires lid =>
    intro hc
    rw [show (step s (Ev.transitionFires lid)).styleCount = (fireTransition lid s).styleCount from rfl,
      (fireTransition_frame lid s).2]
    rw [show (step s (Ev.transitionFires lid)).loadingCount = (fireTransition lid s).loadingCount from rfl,
      (fireTransition_frame lid s).1] at hc
    exact h hc

lemma exec_count_style (evs : List Ev) :
    ∀ s : LState, (0 < s.loadingCount → s.styleCount ≠ 0) →
      (0 < (exec s evs).loadingCount → (exec s evs).styleCount ≠ 0) := by
  induction evs with
  | nil => intro s h; exact h
  | cons e evs ih => intro s h; exact ih (step s e) (step_count_style s e h)

/-- Claim C1, settled against the code at a concrete input: in the balanced
sequence show, hide, then show and hide again 50 units later, with both
scheduled teardown timeouts then firing, the handle does end up unmounted
with no timer pending, but the body scroll overflow ends as hidden while
its value before the first show was the empty string — the pre-first-show
value is not restored, because the second show re-captures prevOverflow
while the scroll lock is still engaged. -/
theorem c1_overflow_not_restored :
    (exec initState c1trace).loadingInstance = none ∧
      (exec initState c1trace).timers = [] ∧
      (exec initState c1trace).loadingCount = 0 ∧
      initState.bodyOverflow = "" ∧
      (exec initState c1trace).bodyOverflow = "hidden" := by
  decide

/-- Claim C2: the deferred teardown callback re-checks the count at fire
time and, whenever the count is positive, changes nothing (no unmount, no
overflow restore); and in the concrete sequence show, hide, show issued
50 units later, after the timeout fires the overlay is still mounted, the
body overflow is still hidden, and the count is 1. -/
theorem teardown_recheck_skips :
    (∀ s : LState, 0 < s.loadingCount → teardownCb s = s) ∧
      ((exec initState c2trace).loadingCount = 1 ∧
        (exec initState c2trace).loadingInstance =
          some ⟨1, ElemKind.spinner none, true⟩ ∧
        (exec initState c2trace).bodyOverflow = "hidden" ∧
        (exec initState c2trace).timers = []) := by
  constructor
  · intro s h
    unfold teardownCb
    rw [if_pos h]
  · decide

/-- Witness for claim C2 at a concrete state with positive count. -/
theorem teardown_recheck_skips_witness :
    0 < (exec initState [Ev.doShow none]).loadingCount ∧
      teardownCb (exec initState [Ev.doShow none]) = exec initState [Ev.doShow none] :=
  ⟨by decide, teardown_recheck_skips.1 (exec initState [Ev.doShow none]) (by decide)⟩

/-- Claim C3: from any state with an existing handle and positive count, a
forced hide sets the count to 0 immediately and appends exactly one
teardown timeout, scheduled 300 units from now, changing nothing else. -/
theorem hideLoading_force_spec (s : LState)
    (h1 : s.loadingInstance ≠ none) (h2 : 0 < s.loadingCount) :
    hideLoading true s =
      { s with loadingCount := 0, timers := s.timers ++ [s.now + 300] } := by
  unfold hideLoading
  rw [if_neg (by push_neg; exact ⟨h1, by omega⟩)]
  rfl

/-- Witness for claim C3: a forced hide right after one show. -/
theorem hideLoading_force_spec_witness :
    (exec initState [Ev.doShow none]).loadingInstance ≠ none ∧
      0 < (exec initState [Ev.doShow none]).loadingCount ∧
      hideLoading true (exec initState [Ev.doShow none]) =
        { exec initState [Ev.doShow none] with
          loadingCount := 0
          timers := (exec initState [Ev.doShow none]).timers ++
            [(exec initState [Ev.doShow none]).now + 300] } :=
  ⟨by decide, by decide,
    hideLoading_force_spec (exec initState [Ev.doShow none]) (by decide) (by decide)⟩

/-- Claim C4: when no handle exists or the count is not positive, hide with
any force flag only resets the count to 0: no timeout is scheduled, the
instance is untouched and the body overflow is untouched. -/
theorem hideLoading_noop (f : Bool) (s : LState)
    (h : s.loadingInstance = none ∨ s.loadingCount ≤ 0) :
    hideLoading f s = { s with loadingCount := 0 } := by
  unfold hideLoading
  rw [if_pos h]

/-- Witness for claim C4: hide on the fresh state with no handle. -/
theorem hideLoading_noop_witness :
    hideLoading false initState = { initState with loadingCount := 0 } :=
  hideLoading_noop false initState (Or.inl rfl)

/-- Claim C5: in the sequence barStart, setLoadingBar 50, loadingBarEnd,
the inline width of the progress line becomes 50 percent and then 100
percent, and when the width transitionend event fires the one-shot
handler unmounts the mask, clears the stored progress, removes itself and
restores the saved body overflow. -/
theorem bar_scenario :
    (exec initState c5a).loadingInstance = some ⟨0, ElemKind.bar "50%", true⟩ ∧
      (exec initState c5b).loadingInstance = some ⟨0, ElemKind.bar "100%", true⟩ ∧
      (exec initState c5b).widthPercent = 100 ∧
      (exec initState c5c).loadingInstance = none ∧
      (exec initState c5c).widthPercent = 0 ∧
      (exec initState c5c).transListeners = [] ∧
      (exec initState c5c).bodyOverflow = initState.bodyOverflow := by
  decide

/-- Claim C6: setLoadingBar with a percentage below 1 or above 100, or
called when no progress line is in the document, changes nothing at all:
neither the stored progress value nor any line width, and no callback is
scheduled. -/
theorem setLoadingBar_noop (n : Int) (s : LState)
    (h : n < 1 ∨ 100 < n ∨ queryLine s = none) :
    setLoadingBar n s = s := by
  unfold setLoadingBar
  rcases h with h | h | h
  · rw [if_pos (Or.inl h)]
  · rw [if_pos (Or.inr h)]
  · by_cases hr : n < 1 ∨ n > 100
    · rw [if_pos hr]
    · rw [if_neg hr, h]

/-- Witness for claim C6: values 0 and 101 right after barStart are silent
no-ops. -/
theorem setLoadingBar_noop_witness :
    setLoadingBar 0 (exec initState [Ev.doBarStart]) = exec initState [Ev.doBarStart] ∧
      setLoadingBar 101 (exec initState [Ev.doBarStart]) = exec initState [Ev.doBarStart] :=
  ⟨setLoadingBar_noop 0 (exec initState [Ev.doBarStart]) (Or.inl (by decide)),
    setLoadingBar_noop 101 (exec initState [Ev.doBarStart]) (Or.inr (Or.inl (by decide)))⟩

/-- Claim C7: from any state, barStart injects the style at most once more,
replaces whatever instance existed by a freshly mounted bar mask whose
line has no inline width, saves the current body overflow, engages the
scroll lock, resets the stored progress to 0, and leaves every other
field — in particular the reference count and the pending timeouts —
unchanged. -/
theorem loadingBarStart_spec (s : LState) :
    loadingBarStart s =
      { s with
        styleCount := if s.styleCount = 0 then 1 else s.styleCount
        loadingInstance := some ⟨s.nextId, ElemKind.bar "", true⟩
        nextId := s.nextId + 1
        prevOverflow := s.bodyOverflow
        bodyOverflow := "hidden"
        widthPercent := 0 } := by
  unfold loadingBarStart injectStyle
  by_cases h : s.styleCount = 0 <;> simp [h]

/-- Claim C8: across any event sequence there is never more than one
injected style marker, and any sequence containing at least one show or
barStart call ends with exactly one marker — every invocation after the
first finds the marker and adds nothing. -/
theorem styleMarker_once (evs : List Ev) :
    (exec initState evs).styleCount ≤ 1 ∧
      ((∃ e ∈ evs, injects e = true) → (exec initState evs).styleCount = 1) :=
  ⟨exec_styleCount_le evs initState (by decide),
    fun hex => exec_styleCount_inj evs initState (by decide) hex⟩

/-- Witness for claim C8 on a sequence with one show call. -/
theorem styleMarker_once_witness :
    (exec initState [Ev.doShow none]).styleCount ≤ 1 ∧
      (exec initState [Ev.doShow none]).styleCount = 1 :=
  ⟨(styleMarker_once [Ev.doShow none]).1,
    (styleMarker_once [Ev.doShow none]).2
      ⟨Ev.doShow none, List.mem_singleton.mpr rfl, rfl⟩⟩

/-- Claim C9: in any reachable state with positive count, a further show
call with any text argument changes nothing but the count, which it
increments by 1: the instance (hence the displayed text), the saved
overflow, the body overflow, the stored progress and all pending
callbacks are untouched, so a different text passed while the overlay is
visible is silently ignored. -/
theorem showLoading_frame (evs : List Ev) (t : Option String)
    (h : 0 < (exec initState evs).loadingCount) :
    showLoading t (exec initState evs) =
      { exec initState evs with
        loadingCount := (exec initState evs).loadingCount + 1 } := by
  have hst : (exec initState evs).styleCount ≠ 0 :=
    exec_count_style evs initState (fun h0 => absurd h0 (by decide)) h
  simp only [showLoading]
  rw [injectStyle_of_ne _ hst, if_neg (by omega)]

/-- Witness for claim C9: a second show with a different text after a first
show. -/
theorem showLoading_frame_witness :
    0 < (exec initState [Ev.doShow none]).loadingCount ∧
      showLoading (some "other text") (exec initState [Ev.doShow none]) =
        { exec initState [Ev.doShow none] with
          loadingCount := (exec initState [Ev.doShow none]).loadingCount + 1 } :=
  ⟨by decide, showLoading_frame [Ev.doShow none] (some "other text") (by decide)⟩

/-- Claim C10: whatever booleans the user-agent tests produce and whatever
the viewport width is, getDevice returns a device that is tablet, mobile
or desktop, and its isMobile component is false exactly when the device
is desktop. -/
theorem getDevice_invariant (tb ph : Bool) (w : Int) :
    ((getDevice tb ph w).1 = "tablet" ∨ (getDevice tb ph w).1 = "mobile" ∨
      (getDevice tb ph w).1 = "desktop") ∧
      ((getDevice tb ph w).2 = false ↔ (getDevice tb ph w).1 = "desktop") := by
  simp only [getDevice]
  split
  · decide
  · split <;> decide

end FrontendToolkit
